import Mathlib

/-!
Verification of the provider/model registry and resolution logic of
`src/lib/ai/models.ts`.

JavaScript objects are modelled as insertion-ordered association lists
(`StrMap`), string primitives (`trim`, `includes`, `split`) at the character
level, and model handles (`LanguageModel` objects, compared by identity in the
source) as an inductive type tagged with their construction site, so that two
handles are equal in the model exactly when they are the same object in the
source.
-/

set_option maxHeartbeats 1000000

/-- Character-level model of JavaScript `String.prototype.trim`. -/
def jsTrim (s : String) : String :=
  String.mk (((s.data.dropWhile Char.isWhitespace).reverse.dropWhile
    Char.isWhitespace).reverse)

/-- Character-level model of JavaScript `s.includes(c)` for one-character `c`. -/
def jsIncludes (s : String) (c : Char) : Bool :=
  s.data.contains c

/-- Character-level model of JavaScript `s.split(c)` for a one-character
separator (`String.prototype.split` without limit; the source applies a limit
by taking a prefix of the result). -/
def jsSplit (s : String) (c : Char) : List String :=
  (s.data.splitOn c).map String.mk

/-- `has` from models.ts: `typeof v === "string" && v.trim().length > 0`.
`Option String` models `string | undefined | null`. -/
def has (v : Option String) : Bool :=
  match v with
  | some s => decide (0 < (jsTrim s).data.length)
  | none => false

/-- A model handle. In the source a handle is an opaque object; handles are
compared by reference identity. Every static handle is constructed exactly once
by a provider constructor applied to a model-identifier string, and every
dynamic handle is constructed exactly once by the dynamic catalog builder for
one (provider name, model name) pair, so construction-site tagging coincides
with object identity. -/
inductive LanguageModel where
  | fromStatic (ctor : String) (arg : String)
  | fromDynamic (provider : String) (name : String)
deriving DecidableEq, Repr

/-- The `openai(...)` provider constructor. -/
def openai (id : String) : LanguageModel := .fromStatic "openai" id

/-- The `google(...)` provider constructor. -/
def google (id : String) : LanguageModel := .fromStatic "google" id

/-- The `anthropic(...)` provider constructor. -/
def anthropic (id : String) : LanguageModel := .fromStatic "anthropic" id

/-- The `xai(...)` provider constructor. -/
def xai (id : String) : LanguageModel := .fromStatic "xai" id

/-- The `ollama(...)` provider constructor (the instance created by
`createOllama`). -/
def ollama (id : String) : LanguageModel := .fromStatic "ollama" id

/-- The `openrouter(...)` provider constructor. -/
def openrouter (id : String) : LanguageModel := .fromStatic "openrouter" id

/-- A JavaScript object with string keys, as an insertion-ordered association
list with unique keys; `List.lookup` is property access `o[k]`. -/
abbrev StrMap (α : Type) := List (String × α)

/-- The environment values read by models.ts (each `string | undefined`). -/
structure Env where
  OPENAI_API_KEY : Option String := none
  GOOGLE_GENERATIVE_AI_API_KEY : Option String := none
  ANTHROPIC_API_KEY : Option String := none
  XAI_API_KEY : Option String := none
  OPENROUTER_API_KEY : Option String := none
  OLLAMA_BASE_URL : Option String := none
  OPENAI_COMPATIBLE_DATA : Option String := none
  E2E_DEFAULT_MODEL : Option String := none

/-- The fixed OpenAI static mapping (models.ts lines 38-48). -/
def openaiStaticModels : StrMap LanguageModel :=
  [("gpt-4.1", openai "gpt-4.1"),
   ("gpt-4.1-mini", openai "gpt-4.1-mini"),
   ("o4-mini", openai "o4-mini"),
   ("o3", openai "o3"),
   ("gpt-5", openai "gpt-5"),
   ("gpt-5-mini", openai "gpt-5-mini"),
   ("gpt-5-nano", openai "gpt-5-nano")]

/-- The fixed Google static mapping (models.ts lines 51-57). -/
def googleStaticModels : StrMap LanguageModel :=
  [("gemini-2.5-flash-lite", google "gemini-2.5-flash-lite"),
   ("gemini-2.5-flash", google "gemini-2.5-flash"),
   ("gemini-2.5-pro", google "gemini-2.5-pro")]

/-- The fixed Anthropic static mapping (models.ts lines 60-66). -/
def anthropicStaticModels : StrMap LanguageModel :=
  [("claude-4-sonnet", anthropic "claude-4-sonnet-20250514"),
   ("claude-4-opus", anthropic "claude-4-opus-20250514"),
   ("claude-3-7-sonnet", anthropic "claude-3-7-sonnet-20250219")]

/-- The fixed xAI static mapping (models.ts lines 69-75). -/
def xaiStaticModels : StrMap LanguageModel :=
  [("grok-4", xai "grok-4"),
   ("grok-3", xai "grok-3"),
   ("grok-3-mini", xai "grok-3-mini")]

/-- The fixed Ollama static mapping (models.ts lines 78-84). -/
def ollamaStaticModels : StrMap LanguageModel :=
  [("gemma3:1b", ollama "gemma3:1b"),
   ("gemma3:4b", ollama "gemma3:4b"),
   ("gemma3:12b", ollama "gemma3:12b")]

/-- The fixed OpenRouter static mapping (models.ts lines 87-97). -/
def openRouterStaticModels : StrMap LanguageModel :=
  [("gpt-oss-20b:free", openrouter "openai/gpt-oss-20b:free"),
   ("qwen3-8b:free", openrouter "qwen/qwen3-8b:free"),
   ("qwen3-14b:free", openrouter "qwen/qwen3-14b:free"),
   ("qwen3-coder:free", openrouter "qwen/qwen3-coder:free"),
   ("deepseek-r1:free", openrouter "deepseek/deepseek-r1-0528:free"),
   ("deepseek-v3:free", openrouter "deepseek/deepseek-chat-v3-0324:free"),
   ("gemini-2.0-flash-exp:free", openrouter "google/gemini-2.0-flash-exp:free")]

/-- `conditionalStaticModels` (models.ts lines 32-97): one provider key per
presence flag, added in source order (openai, google, anthropic, xai, ollama,
openRouter); an absent flag contributes no key at all. -/
def conditionalStaticModels (env : Env) : StrMap (StrMap LanguageModel) :=
  (if has env.OPENAI_API_KEY then [("openai", openaiStaticModels)] else []) ++
  (if has env.GOOGLE_GENERATIVE_AI_API_KEY then [("google", googleStaticModels)] else []) ++
  (if has env.ANTHROPIC_API_KEY then [("anthropic", anthropicStaticModels)] else []) ++
  (if has env.XAI_API_KEY then [("xai", xaiStaticModels)] else []) ++
  (if has env.OLLAMA_BASE_URL then [("ollama", ollamaStaticModels)] else []) ++
  (if has env.OPENROUTER_API_KEY then [("openRouter", openRouterStaticModels)] else [])

/-- One optional lookup `m?.[k]` contributing `x ? [x] : []` to a spread. -/
def optEntry (m : Option (StrMap LanguageModel)) (k : String) : List LanguageModel :=
  (m.bind (fun ms => ms.lookup k)).toList

/-- `staticUnsupportedModels` (models.ts lines 100-128): the fixed
known-unsupported (provider, model) pairs, each included only when the handle
was actually constructed. Set membership is list membership (all handles are
distinct objects). -/
def staticUnsupportedModels (env : Env) : List LanguageModel :=
  optEntry ((conditionalStaticModels env).lookup "openai") "o4-mini" ++
  optEntry ((conditionalStaticModels env).lookup "ollama") "gemma3:1b" ++
  optEntry ((conditionalStaticModels env).lookup "ollama") "gemma3:4b" ++
  optEntry ((conditionalStaticModels env).lookup "ollama") "gemma3:12b" ++
  optEntry ((conditionalStaticModels env).lookup "openRouter") "gpt-oss-20b:free" ++
  optEntry ((conditionalStaticModels env).lookup "openRouter") "qwen3-8b:free" ++
  optEntry ((conditionalStaticModels env).lookup "openRouter") "qwen3-14b:free" ++
  optEntry ((conditionalStaticModels env).lookup "openRouter") "deepseek-r1:free" ++
  optEntry ((conditionalStaticModels env).lookup "openRouter") "gemini-2.0-flash-exp:free"

/-- The output shape of `createOpenAICompatibleModels`: the dynamic catalog and
the set of handles it flagged tool-call-unsupported. -/
structure DynamicOutput where
  providers : StrMap (StrMap LanguageModel)
  unsupportedModels : List LanguageModel

/-- JavaScript object spread `{...a, ...b}`: keys of `a` in insertion order
(values overridden by `b` where both define the key), then keys of `b` not in
`a`, in `b`'s insertion order. -/
def spreadRecords {α : Type} (a b : StrMap α) : StrMap α :=
  a.map (fun kv => (kv.1, (b.lookup kv.1).getD kv.2)) ++
  b.filter (fun kv => (a.lookup kv.1).isNone)

/-- `allModels` (models.ts lines 141-144): `{...openaiCompatibleModels,
...conditionalStaticModels}`. -/
def allModels (env : Env) (dyn : DynamicOutput) : StrMap (StrMap LanguageModel) :=
  spreadRecords dyn.providers (conditionalStaticModels env)

/-- `allUnsupportedModels` (models.ts lines 147-150): the union of the dynamic
and static unsupported sets. -/
def allUnsupportedModels (env : Env) (dyn : DynamicOutput) : List LanguageModel :=
  dyn.unsupportedModels ++ staticUnsupportedModels env

/-- `isToolCallUnsupportedModel` (models.ts lines 152-154). -/
def isToolCallUnsupportedModel (env : Env) (dyn : DynamicOutput)
    (model : LanguageModel) : Bool :=
  (allUnsupportedModels env dyn).contains model

/-- `configuredDefault` (models.ts line 159):
`(process.env.E2E_DEFAULT_MODEL || "").trim()`. -/
def configuredDefault (env : Env) : String :=
  jsTrim (env.E2E_DEFAULT_MODEL.getD "")

/-- The explicit-default branch of `resolveFallback` (models.ts lines 160-164):
split the configured default at the first two `/`-separated fields and look the
pair up in the merged registry. -/
def defaultFrom (env : Env) (dyn : DynamicOutput) : Option LanguageModel :=
  let cd := configuredDefault env
  if jsIncludes cd '/' then
    let parts := jsSplit cd '/'
    let provider := parts.headD ""
    let model := (parts.drop 1).headD ""
    ((allModels env dyn).lookup provider).bind (fun ms => ms.lookup model)
  else none

/-- The preferred-OpenAI branch of `resolveFallback` (models.ts lines 167-169):
`conditionalStaticModels.openai?.["gpt-4.1"]`. -/
def openaiPreferred (env : Env) : Option LanguageModel :=
  ((conditionalStaticModels env).lookup "openai").bind (fun ms => ms.lookup "gpt-4.1")

/-- The provider-iteration branch of `resolveFallback` (models.ts lines
172-175): the first value of the first provider with at least one model, in
insertion order. -/
def firstModel (am : StrMap (StrMap LanguageModel)) : Option LanguageModel :=
  am.findSome? (fun kv => (kv.2.map (fun e => e.2)).head?)

/-- The last-resort branch of `resolveFallback` (models.ts lines 178-181):
the first value of `conditionalStaticModels.ollama` when present. -/
def ollamaLastResort (env : Env) : Option LanguageModel :=
  match (conditionalStaticModels env).lookup "ollama" with
  | some ms => (ms.map (fun e => e.2)).head?
  | none => none

/-- `resolveFallback` (models.ts lines 157-186). `none` models the thrown
"No models are available" startup error. -/
def resolveFallback (env : Env) (dyn : DynamicOutput) : Option LanguageModel :=
  match defaultFrom env dyn with
  | some h => some h
  | none =>
    match openaiPreferred env with
    | some h => some h
    | none =>
      match firstModel (allModels env dyn) with
      | some h => some h
      | none => ollamaLastResort env

/-- `resolveFallback` with the ollama last-resort branch removed, for the
unreachability comparison. -/
def resolveFallbackNoLastResort (env : Env) (dyn : DynamicOutput) :
    Option LanguageModel :=
  match defaultFrom env dyn with
  | some h => some h
  | none =>
    match openaiPreferred env with
    | some h => some h
    | none => firstModel (allModels env dyn)

/-- A caller-supplied model reference (`ChatModel` from app-types/chat, used as
`{provider, model}` in models.ts). -/
structure ChatModel where
  provider : String
  model : String

/-- `customModelProvider.getModel` (models.ts lines 198-201), evaluated in a
process whose startup succeeded: `fallbackModel` is the precomputed
`resolveFallback()` value. `none` for the whole call means startup already
threw and the facade never existed. -/
def getModel (env : Env) (dyn : DynamicOutput) (ref : Option ChatModel) :
    Option LanguageModel :=
  match resolveFallback env dyn with
  | none => none
  | some fallbackModel =>
    match ref with
    | none => some fallbackModel
    | some r =>
      some ((((allModels env dyn).lookup r.provider).bind
        (fun ms => ms.lookup r.model)).getD fallbackModel)

/-! ### Concrete fixtures used by witnesses and counterexamples -/

/-- An environment with every value unset. -/
def envAllBlank : Env := ⟨none, none, none, none, none, none, none, none⟩

/-- An environment where only `OPENAI_API_KEY` is set (non-blank). -/
def envOpenAIOnly : Env := ⟨some "sk-test", none, none, none, none, none, none, none⟩

/-- An environment with OpenAI configured and an explicit
`E2E_DEFAULT_MODEL` of `"openai/gpt-4.1"` (with surrounding whitespace). -/
def envDefaultConfigured : Env :=
  ⟨some "sk-test", none, none, none, none, none, none, some " openai/gpt-4.1 "⟩

/-- An empty dynamic-catalog output. -/
def dynEmpty : DynamicOutput := ⟨[], []⟩

/-- A dynamic-catalog output whose single provider name collides with the
static `openai` key, with its model flagged tool-call-unsupported. -/
def dynOpenAIClash : DynamicOutput :=
  ⟨[("openai", [("custom-a", .fromDynamic "openai" "custom-a")])],
   [LanguageModel.fromDynamic "openai" "custom-a"]⟩

/-- A dynamic-catalog output where a provider named `openai` offering
`gpt-4.1` is preceded by another provider, while no static provider is
configured. -/
def dynPreferredShadow : DynamicOutput :=
  ⟨[("other", [("m1", .fromDynamic "other" "m1")]),
    ("openai", [("gpt-4.1", .fromDynamic "openai" "gpt-4.1")])], []⟩

/-- The fixed list of (provider key, model name) pairs that
`staticUnsupportedModels` tries to resolve, in source order (models.ts lines
100-128). -/
def fixedUnsupportedPairs : List (String × String) :=
  [("openai", "o4-mini"), ("ollama", "gemma3:1b"), ("ollama", "gemma3:4b"),
   ("ollama", "gemma3:12b"), ("openRouter", "gpt-oss-20b:free"),
   ("openRouter", "qwen3-8b:free"), ("openRouter", "qwen3-14b:free"),
   ("openRouter", "deepseek-r1:free"), ("openRouter", "gemini-2.0-flash-exp:free")]

/-! ### The dynamic catalog builder, modelled from the spec

The module `./create-openai-compatiable` is imported by models.ts but its
source is not part of this repository snapshot; the definitions below are
modelled from the spec's description of the Dynamic Catalog Builder. -/

/-- Modelled from the spec: one model entry of a dynamic provider definition,
`{ name, supportsTools? }` (the source file create-openai-compatiable.ts is
not included). -/
structure RawCompatModel where
  name : String
  supportsTools : Option Bool
deriving DecidableEq, Repr

/-- Modelled from the spec: one provider entry of the dynamic payload,
`{ name, baseURL, apiKey?, models }`, each field possibly missing (the source
file create-openai-compatiable.ts is not included). -/
structure RawCompatProvider where
  name : Option String
  baseURL : Option String
  apiKey : Option String
  models : Option (List RawCompatModel)
deriving DecidableEq, Repr

/-- Modelled from the spec: a structurally valid dynamic provider definition
(the source file create-openai-compatiable.ts is not included). -/
structure CompatProvider where
  name : String
  baseURL : String
  apiKey : Option String
  models : List RawCompatModel
deriving DecidableEq, Repr

/-- Modelled from the spec: an entry is accepted iff its required fields are
present, its model list is non-empty, and its name does not duplicate an
already-accepted provider name (the source file create-openai-compatiable.ts
is not included). -/
def entryValid (acc : List CompatProvider) (e : RawCompatProvider) :
    Option CompatProvider :=
  match e.name, e.baseURL, e.models with
  | some n, some u, some ms =>
    if ms ≠ [] ∧ acc.all (fun q => q.name != n) then some ⟨n, u, e.apiKey, ms⟩
    else none
  | _, _, _ => none

/-- Modelled from the spec: `openaiCompatibleModelsSafeParse` parses the
payload permissively — a payload that fails to parse as structured data
(`none`) yields an empty list, and each structurally invalid entry is excluded
while the remaining entries are processed (the source file
create-openai-compatiable.ts is not included). -/
def openaiCompatibleModelsSafeParse (payload : Option (List RawCompatProvider)) :
    List CompatProvider :=
  match payload with
  | none => []
  | some entries =>
    entries.foldl (fun acc e =>
      match entryValid acc e with
      | some p => acc ++ [p]
      | none => acc) []

/-- Modelled from the spec: `createOpenAICompatibleModels` turns the validated
provider definitions into a catalog of the same two-level shape as the static
catalog, plus the set of handles whose model entry was flagged as not
supporting tool calls (the source file create-openai-compatiable.ts is not
included). -/
def createOpenAICompatibleModels (ps : List CompatProvider) : DynamicOutput :=
  ⟨ps.map (fun p =>
      (p.name, p.models.map (fun m => (m.name, LanguageModel.fromDynamic p.name m.name)))),
   (ps.map (fun p =>
      (p.models.filter (fun m => m.supportsTools == some false)).map
        (fun m => LanguageModel.fromDynamic p.name m.name))).foldr (· ++ ·) []⟩

/-- A valid dynamic payload entry named `p1`. -/
def rawValid1 : RawCompatProvider := ⟨some "p1", some "http://a", none, some [⟨"m1", none⟩]⟩

/-- A valid dynamic payload entry named `p2`, with one model flagged as not
supporting tool calls. -/
def rawValid2 : RawCompatProvider :=
  ⟨some "p2", some "http://b", some "key", some [⟨"m2", some false⟩, ⟨"m3", some true⟩]⟩

/-- A valid dynamic payload entry named `p3`. -/
def rawValid3 : RawCompatProvider := ⟨some "p3", some "http://c", none, some [⟨"m4", none⟩]⟩

/-- A dynamic payload entry missing its model list. -/
def rawMissingModels : RawCompatProvider := ⟨some "bad", some "http://d", none, none⟩

/-! ### General lemmas about association-list lookup and spread -/

theorem lookup_append {α : Type} (k : String) (l₁ l₂ : StrMap α) :
    (l₁ ++ l₂).lookup k = ((l₁.lookup k).orElse (fun _ => l₂.lookup k)) := by
  induction l₁ with
  | nil => simp
  | cons kv t ih =>
    obtain ⟨k', v⟩ := kv
    cases h : k == k' <;> simp [List.lookup_cons, h, ih]

theorem lookup_cond_single {α : Type} (c : Bool) (k k' : String) (v : α) :
    (if c then [(k', v)] else ([] : StrMap α)).lookup k =
      if c = true ∧ k = k' then some v else none := by
  cases c with
  | false => simp
  | true =>
    by_cases h : k = k'
    · subst h; simp [List.lookup_cons]
    · have hb : (k == k') = false := beq_eq_false_iff_ne.mpr h
      simp [List.lookup_cons, hb, h]

theorem lookup_mem {α : Type} {l : StrMap α} {k : String} {v : α}
    (h : l.lookup k = some v) : (k, v) ∈ l := by
  induction l with
  | nil => simp [List.lookup] at h
  | cons kv t ih =>
    obtain ⟨k', v'⟩ := kv
    cases hk : k == k' with
    | true =>
      rw [List.lookup_cons] at h
      simp [hk] at h
      exact (eq_of_beq hk) ▸ h ▸ List.mem_cons_self _ _
    | false =>
      rw [List.lookup_cons] at h
      simp [hk] at h
      exact List.mem_cons_of_mem _ (ih h)

theorem lookup_map_override {α : Type} (a b : StrMap α) (k : String) :
    (a.map (fun kv => (kv.1, (b.lookup kv.1).getD kv.2))).lookup k
      = (a.lookup k).map (fun v => (b.lookup k).getD v) := by
  induction a with
  | nil => simp
  | cons kv t ih =>
    obtain ⟨k', v'⟩ := kv
    cases hk : k == k' with
    | true =>
      simp [List.lookup_cons, hk, eq_of_beq hk]
    | false =>
      simp [List.lookup_cons, hk, ih]

theorem lookup_filter_none {α : Type} (a b : StrMap α) (k : String) :
    (b.filter (fun kv => (a.lookup kv.1).isNone)).lookup k
      = if (a.lookup k).isNone then b.lookup k else none := by
  induction b with
  | nil => cases hfa : (a.lookup k).isNone <;> simp [hfa]
  | cons kv t ih =>
    obtain ⟨k', v'⟩ := kv
    rw [List.filter_cons]
    cases hk : k == k' with
    | true =>
      have hkk : k = k' := eq_of_beq hk
      subst hkk
      cases hfa : (a.lookup k).isNone with
      | true => simp [hfa, List.lookup_cons, ih]
      | false => simp [hfa, List.lookup_cons, ih]
    | false =>
      cases hfa : (a.lookup k').isNone with
      | true => simp [hfa, List.lookup_cons, hk, ih]
      | false => simp [hfa, ih, List.lookup_cons, hk]

theorem lookup_spread {α : Type} (a b : StrMap α) (k : String) :
    (spreadRecords a b).lookup k =
      ((b.lookup k).orElse (fun _ => a.lookup k)) := by
  unfold spreadRecords
  rw [lookup_append, lookup_map_override, lookup_filter_none]
  cases ha : a.lookup k <;> cases hb : b.lookup k <;> simp [Option.orElse]

theorem mem_spread_of_lookup {α : Type} {a b : StrMap α} {k : String} {v : α}
    (h : b.lookup k = some v) : ∃ kv ∈ spreadRecords a b, kv.2 = v := by
  cases ha : a.lookup k with
  | none =>
    refine ⟨(k, v), ?_, rfl⟩
    unfold spreadRecords
    refine List.mem_append_right _ ?_
    exact List.mem_filter.mpr ⟨lookup_mem h, by simp [ha]⟩
  | some w =>
    refine ⟨(k, (b.lookup k).getD w), ?_, by simp [h]⟩
    unfold spreadRecords
    refine List.mem_append_left _ ?_
    exact List.mem_map.mpr ⟨(k, w), lookup_mem ha, rfl⟩

theorem firstModel_eq_none_forall {am : StrMap (StrMap LanguageModel)}
    (h : firstModel am = none) : ∀ kv ∈ am, kv.2 = [] := by
  intro kv hkv
  have := List.findSome?_eq_none_iff.mp h kv hkv
  have hmap : kv.2.map (fun e => e.2) = [] := List.head?_eq_none_iff.mp this
  exact List.map_eq_nil_iff.mp hmap

/-! ### Claim theorems -/

/-- C1: for every merged registry and caller-supplied reference whose provider
key is absent from the registry or whose model name is absent from that
provider's mapping, `getModel` returns exactly the precomputed fallback — the
same handle `getModel` returns with no reference — and never errors. -/
theorem getModel_unknown_selection_fail_open (env : Env) (dyn : DynamicOutput)
    (r : ChatModel)
    (h : (allModels env dyn).lookup r.provider = none ∨
      ∃ ms, (allModels env dyn).lookup r.provider = some ms ∧
        ms.lookup r.model = none) :
    getModel env dyn (some r) = getModel env dyn none ∧
    (∀ fb, resolveFallback env dyn = some fb →
      getModel env dyn (some r) = some fb) := by
  have hb : ((allModels env dyn).lookup r.provider).bind
      (fun ms => ms.lookup r.model) = none := by
    rcases h with h | ⟨ms, h1, h2⟩
    · simp [h]
    · simp [h1, h2]
  constructor
  · cases hf : resolveFallback env dyn <;> simp [getModel, hf, hb]
  · intro fb hf; simp [getModel, hf, hb]

/-- Witness for C1: with only OpenAI configured, resolving
`{provider: "nonexistent", model: "x"}` equals resolving no reference. -/
theorem getModel_unknown_selection_fail_open_witness :
    getModel envOpenAIOnly dynEmpty (some ⟨"nonexistent", "x"⟩) =
      getModel envOpenAIOnly dynEmpty none :=
  (getModel_unknown_selection_fail_open envOpenAIOnly dynEmpty
    ⟨"nonexistent", "x"⟩ (Or.inl (by decide))).1

/-- C2: for every provider name defined in both the static and the dynamic
catalog, the merged registry's mapping for it equals the static catalog's
mapping in its entirety (the dynamic provider's models do not survive the
merge and no per-model mixing occurs). -/
theorem allModels_static_precedence (env : Env) (dyn : DynamicOutput)
    (p : String) (sm : StrMap LanguageModel)
    (_hboth : p ∈ dyn.providers.map Prod.fst)
    (hstat : (conditionalStaticModels env).lookup p = some sm) :
    (allModels env dyn).lookup p = some sm ∧
    (allModels env dyn).lookup p = (conditionalStaticModels env).lookup p := by
  have h := lookup_spread dyn.providers (conditionalStaticModels env) p
  constructor <;> simp [allModels, h, hstat, Option.orElse]

/-- Witness for C2: a dynamic provider named `openai` is entirely shadowed by
the static `openai` mapping. -/
theorem allModels_static_precedence_witness :
    (allModels envOpenAIOnly dynOpenAIClash).lookup "openai" =
      some openaiStaticModels ∧
    (allModels envOpenAIOnly dynOpenAIClash).lookup "openai" =
      (conditionalStaticModels envOpenAIOnly).lookup "openai" :=
  allModels_static_precedence envOpenAIOnly dynOpenAIClash "openai"
    openaiStaticModels (by decide) (by decide)

/-- C6: for every provider, the static catalog contains that provider's key
iff its presence signal is a string that is non-blank after trimming; a blank
or unset signal leaves the key entirely absent. -/
theorem conditionalStaticModels_presence_gating (env : Env) :
    ((conditionalStaticModels env).lookup "openai"
      = if has env.OPENAI_API_KEY then some openaiStaticModels else none) ∧
    ((conditionalStaticModels env).lookup "google"
      = if has env.GOOGLE_GENERATIVE_AI_API_KEY then some googleStaticModels else none) ∧
    ((conditionalStaticModels env).lookup "anthropic"
      = if has env.ANTHROPIC_API_KEY then some anthropicStaticModels else none) ∧
    ((conditionalStaticModels env).lookup "xai"
      = if has env.XAI_API_KEY then some xaiStaticModels else none) ∧
    ((conditionalStaticModels env).lookup "ollama"
      = if has env.OLLAMA_BASE_URL then some ollamaStaticModels else none) ∧
    ((conditionalStaticModels env).lookup "openRouter"
      = if has env.OPENROUTER_API_KEY then some openRouterStaticModels else none) ∧
    (∀ v : Option String,
      has v = true ↔ ∃ s, v = some s ∧ 0 < (jsTrim s).data.length) := by
  refine ⟨?_, ?_, ?_, ?_, ?_, ?_, ?_⟩
  · cases h : has env.OPENAI_API_KEY <;>
      simp [conditionalStaticModels, lookup_append, lookup_cond_single, h]
  · cases h : has env.GOOGLE_GENERATIVE_AI_API_KEY <;>
      simp [conditionalStaticModels, lookup_append, lookup_cond_single, h]
  · cases h : has env.ANTHROPIC_API_KEY <;>
      simp [conditionalStaticModels, lookup_append, lookup_cond_single, h]
  · cases h : has env.XAI_API_KEY <;>
      simp [conditionalStaticModels, lookup_append, lookup_cond_single, h]
  · cases h : has env.OLLAMA_BASE_URL <;>
      simp [conditionalStaticModels, lookup_append, lookup_cond_single, h]
  · cases h : has env.OPENROUTER_API_KEY <;>
      simp [conditionalStaticModels, lookup_append, lookup_cond_single, h]
  · intro v; cases v <;> simp [has]

/-- C3: with every presence signal blank and no dynamic providers, registry
construction fails at startup (`resolveFallback` has no handle to return,
modelled as `none` for the thrown error); conversely, whenever the merged
registry has at least one provider with at least one model, startup does not
throw. -/
theorem resolveFallback_empty_registry_fatal (env : Env) (dyn : DynamicOutput) :
    (has env.OPENAI_API_KEY = false → has env.GOOGLE_GENERATIVE_AI_API_KEY = false →
     has env.ANTHROPIC_API_KEY = false → has env.XAI_API_KEY = false →
     has env.OPENROUTER_API_KEY = false → has env.OLLAMA_BASE_URL = false →
     dyn.providers = [] → resolveFallback env dyn = none) ∧
    (∀ p ms, (allModels env dyn).lookup p = some ms → ms ≠ [] →
      (resolveFallback env dyn).isSome = true) := by
  constructor
  · intro h1 h2 h3 h4 h5 h6 hdyn
    have hcs : conditionalStaticModels env = [] := by
      simp [conditionalStaticModels, h1, h2, h3, h4, h5, h6]
    have ham : allModels env dyn = [] := by
      simp [allModels, hcs, hdyn, spreadRecords]
    simp [resolveFallback, defaultFrom, openaiPreferred, firstModel,
      ollamaLastResort, ham, hcs]
  · intro p ms hlk hne
    cases hd : defaultFrom env dyn with
    | some h => simp [resolveFallback, hd]
    | none =>
      cases ho : openaiPreferred env with
      | some h => simp [resolveFallback, hd, ho]
      | none =>
        cases hf : firstModel (allModels env dyn) with
        | some h => simp [resolveFallback, hd, ho, hf]
        | none =>
          exact absurd (firstModel_eq_none_forall hf (p, ms) (lookup_mem hlk)) hne

/-- Witness for C3: an all-blank environment with an empty dynamic payload
fails startup, while an environment with only OpenAI configured succeeds. -/
theorem resolveFallback_empty_registry_fatal_witness :
    resolveFallback envAllBlank dynEmpty = none ∧
    (resolveFallback envOpenAIOnly dynEmpty).isSome = true :=
  ⟨(resolveFallback_empty_registry_fatal envAllBlank dynEmpty).1
      rfl rfl rfl rfl rfl rfl rfl,
   (resolveFallback_empty_registry_fatal envOpenAIOnly dynEmpty).2
      "openai" openaiStaticModels (by decide) (by decide)⟩

/-- C4: when the trimmed explicit default contains `/` and splits into a
provider half and a model half that identify an existing entry of the merged
registry, `resolveFallback` selects exactly that handle, for every registry. -/
theorem resolveFallback_explicit_default (env : Env) (dyn : DynamicOutput)
    (p m : String) (rest : List String) (h : LanguageModel)
    (ms : StrMap LanguageModel)
    (hinc : jsIncludes (configuredDefault env) '/' = true)
    (hsplit : jsSplit (configuredDefault env) '/' = p :: m :: rest)
    (hp : (allModels env dyn).lookup p = some ms)
    (hm : ms.lookup m = some h) :
    resolveFallback env dyn = some h := by
  have hd : defaultFrom env dyn = some h := by
    simp [defaultFrom, hinc, hsplit, hp, hm]
  simp [resolveFallback, hd]

/-- Witness for C4: `E2E_DEFAULT_MODEL = " openai/gpt-4.1 "` with OpenAI
present resolves the fallback to the `gpt-4.1` handle. -/
theorem resolveFallback_explicit_default_witness :
    resolveFallback envDefaultConfigured dynEmpty = some (openai "gpt-4.1") :=
  resolveFallback_explicit_default envDefaultConfigured dynEmpty
    "openai" "gpt-4.1" [] (openai "gpt-4.1") openaiStaticModels
    (by decide) (by decide) (by decide) (by decide)

/-- Counterexample for C5: with no explicit default, a registry in which
`openai`'s preferred model `gpt-4.1` exists only via a dynamic provider (no
static openai): `resolveFallback` does not return the registry's
`openai`/`gpt-4.1` handle but the first model of the first provider. -/
theorem resolveFallback_registry_preferred_counterexample :
    defaultFrom envAllBlank dynPreferredShadow = none ∧
    ((allModels envAllBlank dynPreferredShadow).lookup "openai").bind
      (fun ms => ms.lookup "gpt-4.1") = some (.fromDynamic "openai" "gpt-4.1") ∧
    resolveFallback envAllBlank dynPreferredShadow =
      some (.fromDynamic "other" "m1") ∧
    LanguageModel.fromDynamic "other" "m1" ≠
      LanguageModel.fromDynamic "openai" "gpt-4.1" := by
  refine ⟨by decide, by decide, by decide, by decide⟩

/-- C5 (amended): with no valid explicit default, if the *static catalog's*
openai mapping contains `gpt-4.1` the resolver returns that handle (which is
then also the merged registry's entry at openai/gpt-4.1); otherwise the
resolver returns the first model, in insertion order, of the first provider in
registry-insertion order that has at least one model. -/
theorem resolveFallback_static_preferred_order (env : Env) (dyn : DynamicOutput)
    (hdef : defaultFrom env dyn = none) :
    (∀ h, openaiPreferred env = some h → resolveFallback env dyn = some h ∧
      ((allModels env dyn).lookup "openai").bind
        (fun ms => ms.lookup "gpt-4.1") = some h) ∧
    (openaiPreferred env = none → ∀ h,
      firstModel (allModels env dyn) = some h →
        resolveFallback env dyn = some h) := by
  constructor
  · intro h ho
    constructor
    · simp [resolveFallback, hdef, ho]
    · obtain ⟨sm, hsm, hin⟩ := Option.bind_eq_some.mp ho
      have hsp := lookup_spread dyn.providers (conditionalStaticModels env) "openai"
      simp [allModels, hsp, hsm, Option.orElse, hin]
  · intro ho h hf; simp [resolveFallback, hdef, ho, hf]

/-- Witness for C5 (amended): with only OpenAI configured and no explicit
default, the fallback is the static `gpt-4.1` handle. -/
theorem resolveFallback_static_preferred_order_witness :
    resolveFallback envOpenAIOnly dynEmpty = some (openai "gpt-4.1") ∧
    ((allModels envOpenAIOnly dynEmpty).lookup "openai").bind
      (fun ms => ms.lookup "gpt-4.1") = some (openai "gpt-4.1") :=
  (resolveFallback_static_preferred_order envOpenAIOnly dynEmpty (by decide)).1
    (openai "gpt-4.1") (by decide)

/-- The source's nine conditional inclusions equal a filterMap of the fixed
(provider, model) pair list over the static catalog. -/
theorem staticUnsupportedModels_eq_filterMap (env : Env) :
    staticUnsupportedModels env =
      fixedUnsupportedPairs.filterMap
        (fun pr => ((conditionalStaticModels env).lookup pr.1).bind
          (fun ms => ms.lookup pr.2)) := by
  unfold staticUnsupportedModels fixedUnsupportedPairs optEntry
  simp only [List.filterMap_cons, List.filterMap_nil]
  cases ((conditionalStaticModels env).lookup "openai").bind (fun ms => ms.lookup "o4-mini") <;>
  cases ((conditionalStaticModels env).lookup "ollama").bind (fun ms => ms.lookup "gemma3:1b") <;>
  cases ((conditionalStaticModels env).lookup "ollama").bind (fun ms => ms.lookup "gemma3:4b") <;>
  cases ((conditionalStaticModels env).lookup "ollama").bind (fun ms => ms.lookup "gemma3:12b") <;>
  cases ((conditionalStaticModels env).lookup "openRouter").bind (fun ms => ms.lookup "gpt-oss-20b:free") <;>
  cases ((conditionalStaticModels env).lookup "openRouter").bind (fun ms => ms.lookup "qwen3-8b:free") <;>
  cases ((conditionalStaticModels env).lookup "openRouter").bind (fun ms => ms.lookup "qwen3-14b:free") <;>
  cases ((conditionalStaticModels env).lookup "openRouter").bind (fun ms => ms.lookup "deepseek-r1:free") <;>
  cases ((conditionalStaticModels env).lookup "openRouter").bind (fun ms => ms.lookup "gemini-2.0-flash-exp:free") <;>
  rfl

/-- C7: `isToolCallUnsupportedModel h` is true iff `h` comes from the fixed
known-unsupported pair list resolved against the actually-constructed static
catalog (a pair whose provider is absent resolves to nothing and is silently
skipped), or was flagged by the dynamic catalog builder; for every other
handle it is false. -/
theorem isToolCallUnsupportedModel_characterization (env : Env)
    (dyn : DynamicOutput) (m : LanguageModel) :
    isToolCallUnsupportedModel env dyn m = true ↔
      (m ∈ fixedUnsupportedPairs.filterMap
          (fun pr => ((conditionalStaticModels env).lookup pr.1).bind
            (fun ms => ms.lookup pr.2)) ∨
        m ∈ dyn.unsupportedModels) := by
  rw [← staticUnsupportedModels_eq_filterMap]
  simp [isToolCallUnsupportedModel, allUnsupportedModels, or_comm]

/-- C8 (dynamic builder modelled from the spec): an unparseable payload yields
an empty catalog; a payload of 3 valid entries and 1 entry missing its model
list yields exactly those 3 providers; and entries that are invalid for other
reasons (missing name, empty model list, duplicate provider name) are dropped
while the remaining valid entries are still parsed. -/
theorem openaiCompatibleModelsSafeParse_isolation :
    openaiCompatibleModelsSafeParse none = [] ∧
    (openaiCompatibleModelsSafeParse
        (some [rawValid1, rawValid2, rawMissingModels, rawValid3])).map
      (fun p => p.name) = ["p1", "p2", "p3"] ∧
    ((createOpenAICompatibleModels (openaiCompatibleModelsSafeParse
        (some [rawValid1, rawValid2, rawMissingModels, rawValid3]))).providers).length = 3 ∧
    (openaiCompatibleModelsSafeParse
        (some [rawValid1, ⟨some "p1", some "http://dup", none, some [⟨"m9", none⟩]⟩,
               ⟨none, some "http://e", none, some [⟨"m5", none⟩]⟩,
               ⟨some "p6", some "http://f", none, some []⟩, rawValid2])).map
      (fun p => p.name) = ["p1", "p2"] := by
  refine ⟨rfl, by decide, by decide, by decide⟩

/-- C9: the ollama last-resort branch of `resolveFallback` is unreachable —
whenever the static ollama mapping exists it is a non-empty member of the
merged registry, so the provider-iteration branch has already returned;
`resolveFallback` is extensionally equal to the same function with the
last-resort branch removed. -/
theorem resolveFallback_lastResort_unreachable (env : Env) (dyn : DynamicOutput) :
    resolveFallback env dyn = resolveFallbackNoLastResort env dyn := by
  unfold resolveFallback resolveFallbackNoLastResort
  cases hd : defaultFrom env dyn with
  | some h => rfl
  | none =>
    cases ho : openaiPreferred env with
    | some h => rfl
    | none =>
      cases hf : firstModel (allModels env dyn) with
      | some h => rfl
      | none =>
        cases hol : (conditionalStaticModels env).lookup "ollama" with
        | none => simp [ollamaLastResort, hol]
        | some ms =>
          obtain ⟨kv, hkv, hkv2⟩ := mem_spread_of_lookup (a := dyn.providers) hol
          have hkv' : kv ∈ allModels env dyn := by simpa [allModels] using hkv
          have hnil : kv.2 = [] := firstModel_eq_none_forall hf kv hkv'
          have hms : ms = [] := by rw [← hkv2, hnil]
          simp [ollamaLastResort, hol, hms]

/-- C10: a handle flagged unsupported by the dynamic builder joins the merged
unsupported set unconditionally: even when its provider's name collides with a
static provider — so every model of that dynamic provider is discarded from
the merged registry — the handle still tests unsupported. -/
theorem dynamicUnsupported_merged_unconditionally (env : Env)
    (dyn : DynamicOutput) (p : String) (h : LanguageModel)
    (sm dm : StrMap LanguageModel)
    (hstat : (conditionalStaticModels env).lookup p = some sm)
    (_hdyn : dyn.providers.lookup p = some dm)
    (hflag : h ∈ dyn.unsupportedModels) :
    isToolCallUnsupportedModel env dyn h = true ∧
    (allModels env dyn).lookup p = some sm := by
  constructor
  · have hm : h ∈ allUnsupportedModels env dyn := List.mem_append_left _ hflag
    simpa [isToolCallUnsupportedModel] using hm
  · have hsp := lookup_spread dyn.providers (conditionalStaticModels env) p
    simp [allModels, hsp, hstat, Option.orElse]

/-- Witness for C10: the dynamic provider `openai` collides with the static
key; its flagged model is dropped from the registry yet still reported
tool-call-unsupported. -/
theorem dynamicUnsupported_merged_unconditionally_witness :
    isToolCallUnsupportedModel envOpenAIOnly dynOpenAIClash
      (.fromDynamic "openai" "custom-a") = true ∧
    (allModels envOpenAIOnly dynOpenAIClash).lookup "openai" =
      some openaiStaticModels :=
  dynamicUnsupported_merged_unconditionally envOpenAIOnly dynOpenAIClash
    "openai" (.fromDynamic "openai" "custom-a") openaiStaticModels
    [("custom-a", .fromDynamic "openai" "custom-a")]
    (by decide) (by decide) (by decide)
